import Mathlib

/-!
Shallow embedding of `src/es_log_handler.py` (class `ElasticsearchStdlibHandler`).

The handler owns one Elasticsearch connection (`self.es`, `None` when the sink
is disabled) and one target index name.  All interaction with the outside world
(the Elasticsearch client calls `indices.exists`, `indices.create`,
`es.index`, `es.close`, and the ECS encoder `formatter.format_to_ecs`) is
modelled by passing the outcome of each such external call as an explicit
argument: a value of `Except PyExn _` saying whether that call returned
normally or raised which Python exception.  Every operation additionally
returns the trace of external calls it actually made, and the list of console
reports (`log.critical` / `log.warning`) it produced, so that claims of the
form "zero calls reach submit" or "exactly one WARNING" are statable.
-/

/-- Document produced by the ECS encoder; the encoding itself is an external
collaborator, so the payload is opaque to the handler. -/
abbrev Document := String

/-- A structured stdlib `logging.LogRecord`: the handler reads nothing of it
itself (it only passes it to the encoder); the numeric severity is what the
stdlib dispatch gate compares against the handler level. -/
structure LogRecord where
  levelno : Nat
  message : String
deriving DecidableEq, Repr

/-- The Python exceptions that appear in `es_log_handler.py`: the typed
Elasticsearch client exceptions it catches, the `ValueError` it raises itself,
the `AttributeError` tolerated in `close`, and a catch-all `generic` for any
other `Exception`. -/
inductive PyExn where
  | valueError (msg : String)
  | authenticationException
  | authorizationException
  | notFoundError
  | conflictError
  | attributeError
  | generic (msg : String)
deriving DecidableEq, Repr

/-- Rendering of an exception, standing in for Python string interpolation of
the caught exception object into the console message. -/
def PyExn.describe : PyExn → String
  | .valueError m => m
  | .authenticationException => "AuthenticationException"
  | .authorizationException => "AuthorizationException"
  | .notFoundError => "NotFoundError"
  | .conflictError => "ConflictError"
  | .attributeError => "AttributeError"
  | .generic m => m

/-- A console report made through the module-level logger `log` (stdout). -/
inductive Report where
  | warning (msg : String)
  | critical (msg : String)
deriving DecidableEq, Repr

/-- One external call made by the handler: a backend call
(`indices.exists`, `indices.create`, `es.index`, `es.close`) or an
invocation of the ECS encoder `formatter.format_to_ecs`. -/
inductive ExtCall where
  | existsCall (index : String)
  | createCall (index : String)
  | encodeCall (record : LogRecord)
  | submitCall (index : String) (doc : Document)
  | closeCall
deriving DecidableEq, Repr

/-- The handler state: `es` is `some ()` when a live connection handle is
held and `none` for the disabled sentinel (`self.es = None`); `index` is the
target collection name fixed at construction; `level` is the minimum severity
installed by `logging.Handler.__init__`. -/
structure Handler where
  es : Option Unit
  index : String
  level : Nat
deriving DecidableEq, Repr

/-- Result of running one handler method: the post-state, the exception that
propagated to the caller (if any), the console reports produced, and the
external calls made.  State mutation performed before a raise is kept, as in
Python. -/
structure Outcome where
  state : Handler
  exn : Option PyExn
  reports : List Report
  calls : List ExtCall
deriving DecidableEq, Repr

/-- Console message of the `AuthenticationException` branch of `init_es`. -/
def authnFailedMsg : String :=
  "ES Authn Failed! We cannot log any events to ES (check your creds)!"

/-- Console message of both `AuthorizationException` branches of `init_es`. -/
def authzFailedMsg : String :=
  "ES unauthorized action! We cannot log any events to ES! ES log handler requires the following index permissions: read, write, create_index, view_index_metadata"

/-- Console message of the `NotFoundError` branch of the create step. -/
def hostNotFoundMsg : String :=
  "ES Host Not Found (check ES hostname)! We will not log any events to ES!"

/-- Console message of the `ConflictError` branch of the create step. -/
def indexExistsMsg : String :=
  "ES index already exists."

/-- Console message of the two catch-all `Exception` branches of `init_es`. -/
def unhandledInitMsg (e : PyExn) : String :=
  "Unhandled ES exception! We will not log any events to ES! Additional info: " ++ e.describe

/-- Console message of the catch-all `Exception` branch of `emit`. -/
def unhandledEmitMsg (e : PyExn) : String :=
  "Unhandled exception while attempting to log this event to ES! Additional info: " ++ e.describe

/-- Keyword arguments of `ElasticsearchStdlibHandler.__init__`: `some` when
the key is present in `kwargs`, `none` when absent. -/
structure Kwargs where
  es_endpoint : Option String := none
  es_user : Option String := none
  es_pw : Option String := none
  es_index : Option String := none
  cloud_id : Option String := none
deriving DecidableEq, Repr

/-- Result of bootstrap (`init_es`): the resulting value of `self.es`, the
console reports, and the backend calls made. -/
structure BootOutcome where
  es : Option Unit
  reports : List Report
  calls : List ExtCall
deriving DecidableEq, Repr

/-- Result of construction (`__init__`): either the constructed handler or
the exception construction raised, plus reports and external calls. -/
structure ConstructOutcome where
  result : Except PyExn Handler
  reports : List Report
  calls : List ExtCall
deriving Repr

namespace ElasticsearchStdlibHandler

/-- `init_es` of `es_log_handler.py` (lines 44-86): check whether the index
exists, creating it if not.  `existsOutcome` is the outcome of the external
call `self.es.indices.exists(self.index)`, `createOutcome` that of
`self.es.indices.create(index=self.index)` (consulted only when the create
call is reached).  Every branch is caught, so `init_es` never raises; the
failure branches set `self.es = None` (disabled), except the `ConflictError`
branch of create, which only warns and leaves the connection live. -/
def init_es (index : String)
    (existsOutcome : Except PyExn Bool) (createOutcome : Except PyExn Unit) :
    BootOutcome :=
  match existsOutcome with
  | .error .authenticationException =>
      ⟨none, [.critical authnFailedMsg], [.existsCall index]⟩
  | .error .authorizationException =>
      ⟨none, [.critical authzFailedMsg], [.existsCall index]⟩
  | .error e =>
      ⟨none, [.critical (unhandledInitMsg e)], [.existsCall index]⟩
  | .ok index_exists =>
      if index_exists then
        ⟨some (), [], [.existsCall index]⟩
      else
        match createOutcome with
        | .ok _ =>
            ⟨some (), [], [.existsCall index, .createCall index]⟩
        | .error .authorizationException =>
            ⟨none, [.critical authzFailedMsg], [.existsCall index, .createCall index]⟩
        | .error .notFoundError =>
            ⟨none, [.critical hostNotFoundMsg], [.existsCall index, .createCall index]⟩
        | .error .conflictError =>
            ⟨some (), [.warning indexExistsMsg], [.existsCall index, .createCall index]⟩
        | .error e =>
            ⟨none, [.critical (unhandledInitMsg e)], [.existsCall index, .createCall index]⟩

/-- `__init__` of `es_log_handler.py` (lines 27-42): unpack the four required
keyword arguments, raising `ValueError` if any is absent (before any backend
interaction); otherwise build the client handle, store the index name, run
`init_es`, and install the level via `super().__init__(level=level)`. -/
def construct (level : Nat) (kwargs : Kwargs)
    (existsOutcome : Except PyExn Bool) (createOutcome : Except PyExn Unit) :
    ConstructOutcome :=
  match kwargs.es_endpoint, kwargs.es_user, kwargs.es_pw, kwargs.es_index with
  | some _, some _, some _, some es_index =>
      let boot := init_es es_index existsOutcome createOutcome
      ⟨.ok { es := boot.es, index := es_index, level := level }, boot.reports, boot.calls⟩
  | _, _, _, _ =>
      ⟨.error (.valueError "ES host, index, username, and password are required"), [], []⟩

/-- `emit` of `es_log_handler.py` (lines 88-101): a no-op when
`self.es is None`; otherwise encode the record
(`self.formatter.format_to_ecs(record)`, whose outcome is `encodeOutcome`;
this call sits outside the try block, so its exception propagates), then
submit (`self.es.index(self.index, body=document)`, outcome
`submitOutcome`) inside a try whose catch-all reports at CRITICAL. -/
def emit (h : Handler) (record : LogRecord)
    (encodeOutcome : Except PyExn Document) (submitOutcome : Except PyExn Unit) :
    Outcome :=
  match h.es with
  | none => ⟨h, none, [], []⟩
  | some _ =>
      match encodeOutcome with
      | .error e => ⟨h, some e, [], [.encodeCall record]⟩
      | .ok document =>
          match submitOutcome with
          | .ok _ =>
              ⟨h, none, [], [.encodeCall record, .submitCall h.index document]⟩
          | .error e =>
              ⟨h, none, [.critical (unhandledEmitMsg e)],
                [.encodeCall record, .submitCall h.index document]⟩

/-- `flush` of `es_log_handler.py` (lines 103-108): unconditional no-op. -/
def flush (h : Handler) : Outcome :=
  ⟨h, none, [], []⟩

/-- `close` of `es_log_handler.py` (lines 110-128): a no-op when
`self.es is None`; otherwise call `self.es.close()` (outcome
`closeOutcome`) inside a try that catches only `AttributeError`, then set
`self.es = None`.  A non-`AttributeError` exception from the close call
propagates before the `self.es = None` line runs. -/
def close (h : Handler) (closeOutcome : Except PyExn Unit) : Outcome :=
  match h.es with
  | none => ⟨h, none, [], []⟩
  | some _ =>
      match closeOutcome with
      | .ok _ => ⟨{ h with es := none }, none, [], [.closeCall]⟩
      | .error .attributeError => ⟨{ h with es := none }, none, [], [.closeCall]⟩
      | .error e => ⟨h, some e, [], [.closeCall]⟩

/-- One handler operation together with the outcomes of the external calls it
would make, for reasoning about arbitrary sequences of operations. -/
inductive Op where
  | emitOp (record : LogRecord) (encodeOutcome : Except PyExn Document)
      (submitOutcome : Except PyExn Unit)
  | flushOp
  | closeOp (closeOutcome : Except PyExn Unit)

/-- Dispatch of one `Op` to the corresponding handler method. -/
def runOp (h : Handler) : Op → Outcome
  | .emitOp record encodeOutcome submitOutcome => emit h record encodeOutcome submitOutcome
  | .flushOp => flush h
  | .closeOp closeOutcome => close h closeOutcome

/-- Run a sequence of operations, threading the handler state and
accumulating the external calls made. -/
def run (h : Handler) : List Op → Handler × List ExtCall
  | [] => (h, [])
  | op :: ops =>
      let o := runOp h op
      let rest := run o.state ops
      (rest.1, o.calls ++ rest.2)

/-- Per-handler severity gate of the Python stdlib dispatch
(`logging.Logger.callHandlers`): the record is delivered to the handler's
`emit` only when `record.levelno >= handler.level`.  This gate lives in the
standard library, not in the repository; it is embedded here from the stdlib
semantics because the handler relies on it for level filtering. -/
def callHandlers (h : Handler) (record : LogRecord)
    (encodeOutcome : Except PyExn Document) (submitOutcome : Except PyExn Unit) :
    Outcome :=
  if h.level ≤ record.levelno then emit h record encodeOutcome submitOutcome
  else ⟨h, none, [], []⟩

end ElasticsearchStdlibHandler

namespace logging

/-- Python stdlib numeric severity DEBUG. -/
def DEBUG : Nat := 10

/-- Python stdlib numeric severity INFO. -/
def INFO : Nat := 20

/-- Python stdlib numeric severity WARNING. -/
def WARNING : Nat := 30

/-- Python stdlib numeric severity ERROR. -/
def ERROR : Nat := 40

/-- Python stdlib numeric severity CRITICAL. -/
def CRITICAL : Nat := 50

/-- Python stdlib numeric severity NOTSET (the constructor default). -/
def NOTSET : Nat := 0

end logging

open ElasticsearchStdlibHandler

/-- C1 (counterexample): the claim "calling Emit never raises or propagates an
exception into the caller: any error arising during the emit path (including
encoding the record ...) is caught" is false on the code.  In `emit` the call
`self.formatter.format_to_ecs(record)` sits outside the try block, so on an
enabled sink an encoding error propagates to the caller: here a concrete
enabled handler and a record whose encoding raises a generic exception. -/
theorem emit_raises_on_encoding_error :
    (emit ⟨some (), "app-logs", 0⟩ ⟨logging.INFO, "hello"⟩
        (.error (.generic "bad format args")) (.ok ())).exn
      = some (.generic "bad format args") := rfl

/-- C1 (amended): Emit on a disabled sink is a no-op that never raises; on an
enabled sink, provided the encoding step succeeds, Emit never raises — any
error raised by the submission call is caught, reported locally at CRITICAL,
and swallowed, leaving the handler state unchanged.  (An encoding error, by
contrast, propagates: see the counterexample.) -/
theorem emit_swallows_submission_errors (idx : String) (lvl : Nat) (r : LogRecord)
    (encO : Except PyExn Document) (subO subO' : Except PyExn Unit)
    (d : Document) (e : PyExn) :
    (emit ⟨none, idx, lvl⟩ r encO subO).exn = none ∧
    (emit ⟨some (), idx, lvl⟩ r (.ok d) subO').exn = none ∧
    emit ⟨some (), idx, lvl⟩ r (.ok d) (.error e) =
      ⟨⟨some (), idx, lvl⟩, none, [.critical (unhandledEmitMsg e)],
        [.encodeCall r, .submitCall idx d]⟩ := by
  refine ⟨rfl, ?_, rfl⟩
  cases subO' <;> rfl

/-- C2 (counterexample): the claim "Close ... swallows any teardown error the
close raises, and sets the state to disabled ... regardless of the close
outcome" is false on the code.  `close` catches only `AttributeError`; on a
concrete enabled handler whose backend close call raises a generic exception,
the exception propagates to the caller and the sink stays enabled
(`self.es = None` is never reached). -/
theorem close_raises_on_generic_teardown_error :
    (close ⟨some (), "app-logs", 0⟩ (.error (.generic "socket error"))).exn
        = some (.generic "socket error") ∧
    (close ⟨some (), "app-logs", 0⟩ (.error (.generic "socket error"))).state.es
        = some () := ⟨rfl, rfl⟩

/-- C2 (amended): Close on an enabled sink attempts to close the connection
and, when the close call succeeds or raises the tolerated
`AttributeError`-class error, swallows the error and sets the state to
disabled; Close on an already-disabled sink — in particular a second call
after a successful Close — is a no-op that produces no error.  (A
non-`AttributeError` teardown error propagates and leaves the sink enabled:
see the counterexample.) -/
theorem close_idempotent_swallows_tolerated_errors (idx : String) (lvl : Nat)
    (closeO : Except PyExn Unit) :
    close ⟨none, idx, lvl⟩ closeO = ⟨⟨none, idx, lvl⟩, none, [], []⟩ ∧
    close ⟨some (), idx, lvl⟩ (.ok ()) = ⟨⟨none, idx, lvl⟩, none, [], [.closeCall]⟩ ∧
    close ⟨some (), idx, lvl⟩ (.error .attributeError) =
      ⟨⟨none, idx, lvl⟩, none, [], [.closeCall]⟩ :=
  ⟨rfl, rfl, rfl⟩

/-- C3: the disabled state is terminal and guarded — starting from a disabled
sink, every sequence of Emit/Flush/Close operations (with arbitrary outcomes
of the external calls) leaves the state disabled and makes no external call at
all; in particular no document-submission call reaches the backend and every
Emit is a no-op. -/
theorem disabled_is_terminal (idx : String) (lvl : Nat) (ops : List Op) :
    run ⟨none, idx, lvl⟩ ops = (⟨none, idx, lvl⟩, []) := by
  induction ops with
  | nil => rfl
  | cons op ops ih =>
      have hop : runOp ⟨none, idx, lvl⟩ op = ⟨⟨none, idx, lvl⟩, none, [], []⟩ := by
        cases op <;> rfl
      simp [run, hop, ih]

/-- C4: whenever at least one of the four required keyword arguments
(endpoint, username, password, index name) is absent, construction raises the
`ValueError` synchronously, makes no backend call whatsoever, and produces no
handler. -/
theorem construct_missing_param_fails (level : Nat) (kwargs : Kwargs)
    (existsO : Except PyExn Bool) (createO : Except PyExn Unit)
    (hmiss : kwargs.es_endpoint = none ∨ kwargs.es_user = none ∨
      kwargs.es_pw = none ∨ kwargs.es_index = none) :
    construct level kwargs existsO createO =
      ⟨.error (.valueError "ES host, index, username, and password are required"),
        [], []⟩ := by
  obtain ⟨e, u, p, i, c⟩ := kwargs
  cases e <;> cases u <;> cases p <;> cases i <;>
    simp_all [ElasticsearchStdlibHandler.construct]

/-- C4 (witness): a concrete kwargs value missing the endpoint satisfies the
hypothesis, and construction on it fails with the `ValueError` and an empty
call trace. -/
theorem construct_missing_param_fails_witness :
    (Kwargs.es_endpoint ⟨none, some "u", some "p", some "logs", none⟩ = none ∨
      Kwargs.es_user ⟨none, some "u", some "p", some "logs", none⟩ = none ∨
      Kwargs.es_pw ⟨none, some "u", some "p", some "logs", none⟩ = none ∨
      Kwargs.es_index ⟨none, some "u", some "p", some "logs", none⟩ = none) ∧
    construct 0 ⟨none, some "u", some "p", some "logs", none⟩ (.ok true) (.ok ()) =
      ⟨.error (.valueError "ES host, index, username, and password are required"),
        [], []⟩ :=
  ⟨Or.inl rfl,
    construct_missing_param_fails 0 ⟨none, some "u", some "p", some "logs", none⟩
      (.ok true) (.ok ()) (Or.inl rfl)⟩

/-- C5: if the existence check raises `AuthenticationException` during
bootstrap, construction reports exactly one CRITICAL message locally and
returns a handler in the disabled state after exactly one backend call (the
existence check); on that disabled handler every Emit call, for every record
and every outcome of the external calls, is a no-op: it raises nothing,
produces no report, makes zero external calls (so zero calls reach the
backend submit), and leaves the state disabled. -/
theorem authn_failure_permanently_disables (level : Nat) (ep u pw idx : String)
    (cid : Option String) (createO : Except PyExn Unit) (r : LogRecord)
    (encO : Except PyExn Document) (subO : Except PyExn Unit) :
    construct level ⟨some ep, some u, some pw, some idx, cid⟩
        (.error .authenticationException) createO =
      ⟨.ok ⟨none, idx, level⟩, [.critical authnFailedMsg], [.existsCall idx]⟩ ∧
    emit ⟨none, idx, level⟩ r encO subO = ⟨⟨none, idx, level⟩, none, [], []⟩ :=
  ⟨rfl, rfl⟩

/-- C6: a per-event submission failure does not change the sink state — on an
enabled handler, an event whose submission raises a generic error yields
exactly one CRITICAL console report, no exception, and an unchanged handler
(same connection, same index, same level); the next event is then attempted
normally against the backend (its encode and submit calls are both made). -/
theorem submit_failure_keeps_sink_enabled (idx : String) (lvl : Nat) (m : String)
    (rN rN1 : LogRecord) (dN dN1 : Document) :
    emit ⟨some (), idx, lvl⟩ rN (.ok dN) (.error (.generic m)) =
      ⟨⟨some (), idx, lvl⟩, none, [.critical (unhandledEmitMsg (.generic m))],
        [.encodeCall rN, .submitCall idx dN]⟩ ∧
    emit ⟨some (), idx, lvl⟩ rN1 (.ok dN1) (.ok ()) =
      ⟨⟨some (), idx, lvl⟩, none, [], [.encodeCall rN1, .submitCall idx dN1]⟩ :=
  ⟨rfl, rfl⟩

/-- C7: when the existence check returns false and the creation step raises
`ConflictError`, bootstrap reports exactly one WARNING (and zero CRITICAL
reports — the report list is exactly one warning) and construction returns a
handler in the enabled state: the race is treated as success. -/
theorem conflict_error_treated_as_success (level : Nat) (ep u pw idx : String)
    (cid : Option String) :
    construct level ⟨some ep, some u, some pw, some idx, cid⟩
        (.ok false) (.error .conflictError) =
      ⟨.ok ⟨some (), idx, level⟩, [.warning indexExistsMsg],
        [.existsCall idx, .createCall idx]⟩ := rfl

/-- C8: whenever the existence check returns false, bootstrap attempts the
creation of the target collection (the call trace is exactly the existence
check followed by the create call, for every outcome of the create call); and
if that creation raises `NotFoundError` (host unreachable), a CRITICAL
"host not found" message is reported and the sink ends disabled. -/
theorem exists_false_attempts_create (idx : String) (createO : Except PyExn Unit) :
    (init_es idx (.ok false) createO).calls = [.existsCall idx, .createCall idx] ∧
    init_es idx (.ok false) (.error .notFoundError) =
      ⟨none, [.critical hostNotFoundMsg], [.existsCall idx, .createCall idx]⟩ := by
  constructor
  · cases createO with
    | ok _ => rfl
    | error e => cases e <;> rfl
  · rfl

/-- C9: a sink constructed with minimum level WARNING (the stdlib dispatch
gate compares `record.levelno` against `handler.level`) never lets a DEBUG or
INFO record reach the encoder or the backend submit call, for any outcomes of
the external calls, but forwards WARNING, ERROR, and CRITICAL records to the
submit call. -/
theorem warning_level_filters_submit (ep u pw idx : String) (cid : Option String)
    (m : String) (d : Document) (createO : Except PyExn Unit)
    (encO : Except PyExn Document) (subO : Except PyExn Unit) :
    (construct logging.WARNING ⟨some ep, some u, some pw, some idx, cid⟩
        (.ok true) createO).result = .ok ⟨some (), idx, logging.WARNING⟩ ∧
    (callHandlers ⟨some (), idx, logging.WARNING⟩ ⟨logging.DEBUG, m⟩ encO subO).calls
        = [] ∧
    (callHandlers ⟨some (), idx, logging.WARNING⟩ ⟨logging.INFO, m⟩ encO subO).calls
        = [] ∧
    (callHandlers ⟨some (), idx, logging.WARNING⟩ ⟨logging.WARNING, m⟩
        (.ok d) (.ok ())).calls
      = [.encodeCall ⟨logging.WARNING, m⟩, .submitCall idx d] ∧
    (callHandlers ⟨some (), idx, logging.WARNING⟩ ⟨logging.ERROR, m⟩
        (.ok d) (.ok ())).calls
      = [.encodeCall ⟨logging.ERROR, m⟩, .submitCall idx d] ∧
    (callHandlers ⟨some (), idx, logging.WARNING⟩ ⟨logging.CRITICAL, m⟩
        (.ok d) (.ok ())).calls
      = [.encodeCall ⟨logging.CRITICAL, m⟩, .submitCall idx d] :=
  ⟨rfl, rfl, rfl, rfl, rfl, rfl⟩

/-- C10: on a disabled sink, Emit returns before the encoding step — for
every record and every outcome of the external calls, the call trace is empty
(no `encodeCall` is made, hence no exception of the encoder can arise), no
report is produced, nothing is raised, and the state is unchanged. -/
theorem disabled_emit_skips_encoder (idx : String) (lvl : Nat) (r : LogRecord)
    (encO : Except PyExn Document) (subO : Except PyExn Unit) :
    emit ⟨none, idx, lvl⟩ r encO subO = ⟨⟨none, idx, lvl⟩, none, [], []⟩ := rfl
